import Mathlib

/-!
Verification of the client-side upload validation, submission locking,
auto-refresh polling and transient alert logic of the MailManager
application front end (static/js/main.js). Each JavaScript function that
the claims touch is shallowly embedded as a pure Lean function over an
explicit state record; machine arithmetic on file sizes is carried out on
exact byte counts (the JavaScript float division by 1024*1024 is exact for
all sizes in range, so the comparisons and the rounded display agree with
the embedding).
-/

set_option autoImplicit false

/-- A selected or dropped file as the DOM exposes it to the scripts:
a name and a byte size (file.name and file.size). -/
structure CSVFile where
  name : String
  size : Nat
deriving DecidableEq, Repr

/-- A transient alert emitted through showAlert: the message text and the
severity string (the `type` argument of showAlert in the source). -/
structure AlertMsg where
  message : String
  severity : String
deriving DecidableEq, Repr

/-- JavaScript String.prototype.toLowerCase, restricted to the ASCII range
(the only range that matters for the suffix test in the source). -/
def jsToLowerCase (s : String) : String :=
  ⟨s.data.map Char.toLower⟩

/-- JavaScript String.prototype.endsWith: the second argument is a suffix of
the first. -/
def jsEndsWith (s tail : String) : Bool :=
  tail.data.isSuffixOf s.data

/-- The size bound of validateCSVFile in main.js: fileSize is
file.size / 1024 / 1024 (exact in IEEE doubles because the divisor is a
power of two) and the rejection test is fileSize > 100, which is equivalent
to file.size > 100 * 1024 * 1024 bytes. -/
def maxUploadBytes : Nat := 100 * 1024 * 1024

/-- The ValidationResult reason codes named by the specification. -/
inductive ReasonCode where
  | OK
  | BAD_EXTENSION
  | TOO_LARGE
deriving DecidableEq, Repr

/-- The slice of page state that validateCSVFile reads and writes:
the file list of the #csvFile input (assigning the empty string to
input.value empties this list, which models clearing the staged
selection), the innerHTML of the #fileInfo element when that element is
present, the disabled flag of the #submitBtn element when present, and the
list of alerts emitted through showAlert, in order of emission. -/
structure UploadState where
  files : List CSVFile
  fileInfo : Option String
  submitBtnDisabled : Option Bool
  alerts : List AlertMsg
deriving DecidableEq, Repr

/-- Alert shown by validateCSVFile when the extension check fails. -/
def badExtensionAlert : AlertMsg :=
  ⟨"Please select a CSV file.", "danger"⟩

/-- Alert shown by validateCSVFile when the size check fails. -/
def tooLargeAlert : AlertMsg :=
  ⟨"File size must be less than 100MB.", "danger"⟩

/-- fileInfo message written on an extension rejection. -/
def badExtensionHTML : String :=
  "<span class=\"text-danger\">Please select a CSV file.</span>"

/-- fileInfo message written on a size rejection. -/
def tooLargeHTML : String :=
  "<span class=\"text-danger\">File size must be less than 100MB.</span>"

/-- fileSize.toFixed(2) where fileSize is file.size / 1024 / 1024: the
quotient is exactly representable, and toFixed rounds to the nearest
hundredth with ties away from zero, which on exact values is
round-half-up of 100 * size / 2^20. -/
def mbToFixed2 (size : Nat) : String :=
  let n := (size * 100 + 524288) / 1048576
  let r := n % 100
  toString (n / 100) ++ "." ++ (if r < 10 then "0" ++ toString r else toString r)

/-- fileInfo message written on acceptance: the template literal of
main.js naming the file and its size in MB. -/
def fileInfoSuccessHTML (f : CSVFile) : String :=
  "<span class=\"text-success\">File selected: <strong>" ++ f.name ++
    "</strong> (" ++ mbToFixed2 f.size ++ " MB)</span><br>" ++
    "File must be in CSV format with required columns: sender, subject, body, sent_date"

/-- The decision made by the branch structure of validateCSVFile,
expressed as the reason codes of the specification: the extension test
runs first, then the size test. -/
def validationResult (f : CSVFile) : ReasonCode :=
  if !(jsEndsWith (jsToLowerCase f.name) ".csv") then ReasonCode.BAD_EXTENSION
  else if f.size > maxUploadBytes then ReasonCode.TOO_LARGE
  else ReasonCode.OK

/-- validateCSVFile of main.js. Reads input.files[0] and returns at once
when there is none. On an extension failure: clears the input value
(emptying the staged file list), shows a danger alert, writes the danger
message into #fileInfo when present and disables #submitBtn when present.
On a size failure: the same effects with the size message. Otherwise:
writes the success summary into #fileInfo when present and enables
#submitBtn when present, leaving the file list untouched and emitting no
alert. -/
def validateCSVFile (s : UploadState) : UploadState :=
  match s.files.head? with
  | none => s
  | some file =>
    if !(jsEndsWith (jsToLowerCase file.name) ".csv") then
      { s with files := [],
               alerts := s.alerts ++ [badExtensionAlert],
               fileInfo := s.fileInfo.map (fun _ => badExtensionHTML),
               submitBtnDisabled := s.submitBtnDisabled.map (fun _ => true) }
    else if file.size > maxUploadBytes then
      { s with files := [],
               alerts := s.alerts ++ [tooLargeAlert],
               fileInfo := s.fileInfo.map (fun _ => tooLargeHTML),
               submitBtnDisabled := s.submitBtnDisabled.map (fun _ => true) }
    else
      { s with fileInfo := s.fileInfo.map (fun _ => fileInfoSuccessHTML file),
               submitBtnDisabled := s.submitBtnDisabled.map (fun _ => false) }

/-- handleDrop of initializeFileUpload in main.js, applied to the dropped
file list: an empty drop does nothing; otherwise only the first dropped
file is examined. When its lowercase name ends in .csv the whole dropped
list is assigned to the input and validateCSVFile runs, followed by a
success alert; otherwise a warning alert is shown and validateCSVFile is
not invoked. The returned Bool records whether validateCSVFile ran. -/
def handleDrop (dropped : List CSVFile) (s : UploadState) : UploadState × Bool :=
  match dropped with
  | [] => (s, false)
  | file :: _ =>
    if jsEndsWith (jsToLowerCase file.name) ".csv" then
      let s1 := validateCSVFile { s with files := dropped }
      ({ s1 with alerts := s1.alerts ++ [⟨"CSV file ready for upload!", "success"⟩] }, true)
    else
      ({ s with alerts := s.alerts ++ [⟨"Please drop a CSV file.", "warning"⟩] }, false)

/-- The alerts emitted by one call of validateCSVFile on state s: the
suffix that the call appends to the alert log. -/
def alertsEmitted (s : UploadState) : List AlertMsg :=
  (validateCSVFile s).alerts.drop s.alerts.length

/-- Whether a call of validateCSVFile on state s accepted the staged file:
a file was staged and the call left the staged list in place (a rejection
empties it). -/
def callAccepted (s : UploadState) : Bool :=
  !s.files.isEmpty && decide ((validateCSVFile s).files = s.files)

/-- A DOM element as setLoading sees it: tag name, class list, disabled
flag, markup, text, the class of a child icon element when one exists, and
the data-original-html attribute. -/
structure DomElement where
  tagName : String
  classes : List String
  disabled : Bool
  innerHTML : String
  textContent : String
  iconClass : Option String
  dataOriginalHTML : Option String
deriving DecidableEq, Repr

/-- classList.add: appends the class when absent. -/
def classListAdd (cs : List String) (c : String) : List String :=
  if cs.contains c then cs else cs ++ [c]

/-- classList.remove. -/
def classListRemove (cs : List String) (c : String) : List String :=
  cs.filter (fun x => x != c)

/-- The spinner markup setLoading writes into a button with no icon child. -/
def spinnerIconHTML : String :=
  "<i class=\"fas fa-spinner fa-spin me-2\"></i>"

/-- setLoading of main.js, flattened: when loading, add the loading class
and disable the element; on a BUTTON also remember the original markup in
data-original-html and either retarget the icon child class or prepend a
spinner to the text. When not loading, undo: drop the class, enable, and
on a BUTTON restore the remembered markup when present. -/
def setLoading (e : DomElement) (loading : Bool) : DomElement :=
  if loading then
    if e.tagName == "BUTTON" then
      match e.iconClass with
      | some _ =>
        { e with classes := classListAdd e.classes "loading", disabled := true,
                 dataOriginalHTML := some e.innerHTML,
                 iconClass := some "fas fa-spinner fa-spin me-2" }
      | none =>
        { e with classes := classListAdd e.classes "loading", disabled := true,
                 dataOriginalHTML := some e.innerHTML,
                 innerHTML := spinnerIconHTML ++ e.textContent }
    else
      { e with classes := classListAdd e.classes "loading", disabled := true }
  else
    if e.tagName == "BUTTON" then
      match e.dataOriginalHTML with
      | some h =>
        { e with classes := classListRemove e.classes "loading", disabled := false,
                 innerHTML := h, dataOriginalHTML := none }
      | none =>
        { e with classes := classListRemove e.classes "loading", disabled := false }
    else
      { e with classes := classListRemove e.classes "loading", disabled := false }

/-- A form page: the submit button of the form when one exists, and a
count of outbound submissions performed so far. -/
structure FormPage where
  submitButton : Option DomElement
  outbound : Nat
deriving DecidableEq, Repr

/-- One user submit attempt on the form: clicking the submit button, or
the implicit submission the browser routes through the default submit
button. A disabled button generates no submit event, so the attempt is
suppressed; otherwise the submit handler installed by
initializeFormValidations runs setLoading on the button (the lock) and the
browser performs the outbound submission. -/
def clickSubmit (p : FormPage) : FormPage :=
  match p.submitButton with
  | none => p
  | some b =>
    if b.disabled then p
    else { submitButton := some (setLoading b true), outbound := p.outbound + 1 }

/-- The environment one interval tick of initializeAutoRefresh observes:
how many .modal.show elements exist, and the tag name of
document.activeElement when an element holds focus. -/
structure TickEnv where
  openModalCount : Nat
  activeTag : Option String
deriving DecidableEq, Repr

/-- The guard of the 30 second interval callback in initializeAutoRefresh:
the view resynchronization (window.location.reload) is initiated on this
tick exactly when no modal is shown and the focused element, if any, is
not a BUTTON, INPUT, or TEXTAREA. -/
def refreshesOnTick (e : TickEnv) : Bool :=
  e.openModalCount == 0 &&
    (match e.activeTag with
     | none => true
     | some t => t != "BUTTON" && t != "INPUT" && t != "TEXTAREA")

/-- The callbacks showAlert schedules with setTimeout. -/
inductive TAct where
  | fadeIn (id : Nat)
  | removeNow (id : Nat)
  | autoDismiss (id : Nat)
deriving DecidableEq, Repr

/-- An alert element created by showAlert (all carry the alert-auto
class): identity, message, severity, and the style.opacity value. -/
structure AlertNode where
  id : Nat
  message : String
  severity : String
  opacity : String
deriving DecidableEq, Repr

/-- A pending setTimeout: its due time and its callback. -/
structure Timer where
  fireAt : Nat
  act : TAct
deriving DecidableEq, Repr

/-- The alert channel of main.js: the alert-auto elements currently in
the document (in document order), the pending timers, and the id counter
for freshly created elements. -/
structure AlertChannel where
  attached : List AlertNode
  timers : List Timer
  nextId : Nat
deriving DecidableEq, Repr

/-- showAlert of main.js called at time now: every existing alert-auto
element is faded out (opacity 0) and its removal is scheduled 300 ms
later; a new element is created with opacity 0 and appended; a fade-in is
scheduled at 10 ms and the auto-dismiss at the duration. -/
def showAlert (now : Nat) (message typ : String) (duration : Nat)
    (s : AlertChannel) : AlertChannel :=
  let faded := s.attached.map (fun a => { a with opacity := "0" })
  let removeTimers := s.attached.map (fun a => Timer.mk (now + 300) (TAct.removeNow a.id))
  { attached := faded ++ [⟨s.nextId, message, typ, "0"⟩],
    timers := s.timers ++ removeTimers ++
      [⟨now + 10, TAct.fadeIn s.nextId⟩, ⟨now + duration, TAct.autoDismiss s.nextId⟩],
    nextId := s.nextId + 1 }

/-- Run one scheduled callback. The auto-dismiss callback guards on
alertDiv.parentNode: when the element is still attached it fades it out
and schedules the removal 300 ms later, otherwise it does nothing. -/
def execTimer (t : Timer) (s : AlertChannel) : AlertChannel :=
  match t.act with
  | TAct.fadeIn id =>
    { s with attached :=
        s.attached.map (fun a => if a.id == id then { a with opacity := "1" } else a) }
  | TAct.removeNow id =>
    { s with attached := s.attached.filter (fun a => a.id != id) }
  | TAct.autoDismiss id =>
    if s.attached.any (fun a => a.id == id) then
      { s with
        attached :=
          s.attached.map (fun a => if a.id == id then { a with opacity := "0" } else a),
        timers := s.timers ++ [⟨t.fireAt + 300, TAct.removeNow id⟩] }
    else s

/-- The earliest due time among the pending timers. -/
def minFireAt (ts : List Timer) : Option Nat :=
  ts.foldl (fun acc t =>
    match acc with
    | none => some t.fireAt
    | some m => some (min m t.fireAt)) none

/-- Remove the first timer due at the given time (timers sharing a due
time run in registration order). -/
def removeFirstAt (a : Nat) : List Timer → Option (Timer × List Timer)
  | [] => none
  | t :: rest =>
    if t.fireAt == a then some (t, rest)
    else
      match removeFirstAt a rest with
      | none => none
      | some (u, rest2) => some (u, t :: rest2)

/-- Run the earliest pending timer when it is due at or before the bound. -/
def stepTimers (bound : Nat) (s : AlertChannel) : Option AlertChannel :=
  match minFireAt s.timers with
  | none => none
  | some m =>
    if m ≤ bound then
      match removeFirstAt m s.timers with
      | some (t, rest) => some (execTimer t { s with timers := rest })
      | none => none
    else none

/-- Run every timer due at or before the bound, earliest first, within
the given fuel. -/
def runUntilTime : Nat → Nat → AlertChannel → AlertChannel
  | 0, _, s => s
  | fuel + 1, bound, s =>
    match stepTimers bound s with
    | none => s
    | some s2 => runUntilTime fuel bound s2

/-- Manual dismissal through the close control (bootstrap
data-bs-dismiss): the element is detached; no pending timer is touched. -/
def manualDismiss (id : Nat) (s : AlertChannel) : AlertChannel :=
  { s with attached := s.attached.filter (fun a => a.id != id) }

/-- A document with no alert element and no pending timer. -/
def emptyChannel : AlertChannel := ⟨[], [], 0⟩

/-- The two-calls-in-quick-succession scenario: showAlert at time 0,
timers run to time 100, showAlert again at time 100, timers run to time
500 (past the 300 ms detach of the first alert, before any expiry). -/
def notifyTwiceTrace (m1 t1 m2 t2 : String) : AlertChannel :=
  let d1 := showAlert 0 m1 t1 5000 emptyChannel
  let d2 := runUntilTime 8 100 d1
  let d3 := showAlert 100 m2 t2 5000 d2
  runUntilTime 8 500 d3

/-- The manual dismissal scenario: showAlert at time 0, timers run to
time 100 (the fade-in fires), then the user dismisses the alert through
its close control. -/
def dismissTrace (m t : String) : AlertChannel :=
  let d1 := showAlert 0 m t 5000 emptyChannel
  let d2 := runUntilTime 8 100 d1
  manualDismiss 0 d2

/-! ## Helper lemmas -/

/-- Unfolding lemma: with a staged file, validateCSVFile is its branch
expression on that file. -/
theorem validateCSVFile_eq_of_head (s : UploadState) (f : CSVFile)
    (h : s.files.head? = some f) :
    validateCSVFile s =
      if !(jsEndsWith (jsToLowerCase f.name) ".csv") then
        { s with files := [],
                 alerts := s.alerts ++ [badExtensionAlert],
                 fileInfo := s.fileInfo.map (fun _ => badExtensionHTML),
                 submitBtnDisabled := s.submitBtnDisabled.map (fun _ => true) }
      else if f.size > maxUploadBytes then
        { s with files := [],
                 alerts := s.alerts ++ [tooLargeAlert],
                 fileInfo := s.fileInfo.map (fun _ => tooLargeHTML),
                 submitBtnDisabled := s.submitBtnDisabled.map (fun _ => true) }
      else
        { s with fileInfo := s.fileInfo.map (fun _ => fileInfoSuccessHTML f),
                 submitBtnDisabled := s.submitBtnDisabled.map (fun _ => false) } := by
  unfold validateCSVFile
  rw [h]

/-- With no staged file, validateCSVFile returns at once and the state is
untouched. -/
theorem validateCSVFile_empty_files (s : UploadState) (h : s.files = []) :
    validateCSVFile s = s := by
  unfold validateCSVFile
  rw [h]
  rfl

/-- A state whose file list starts with f. -/
theorem files_eq_cons_of_head (s : UploadState) (f : CSVFile)
    (h : s.files.head? = some f) : ∃ t, s.files = f :: t := by
  cases hs : s.files with
  | nil => rw [hs] at h; cases h
  | cons a t =>
    rw [hs] at h
    simp only [List.head?_cons, Option.some.injEq] at h
    exact ⟨t, by rw [h]⟩

/-- Dropping the length of the left summand of an append leaves the right
summand. -/
theorem drop_length_append (l m : List AlertMsg) : (l ++ m).drop l.length = m := by
  induction l with
  | nil => rfl
  | cons a l ih => simp [ih]

/-- The observable effects of a validateCSVFile call depend only on the
staged file: the emitted alerts and the acceptance decision are those of
validationResult, and a second call on the resulting state changes
nothing. -/
theorem validateCSVFile_observables (s : UploadState) (f : CSVFile)
    (h : s.files.head? = some f) :
    alertsEmitted s =
      (match validationResult f with
       | ReasonCode.OK => []
       | ReasonCode.BAD_EXTENSION => [badExtensionAlert]
       | ReasonCode.TOO_LARGE => [tooLargeAlert]) ∧
    callAccepted s = (validationResult f == ReasonCode.OK) ∧
    validateCSVFile (validateCSVFile s) = validateCSVFile s := by
  obtain ⟨t, hs⟩ := files_eq_cons_of_head s f h
  cases hext : jsEndsWith (jsToLowerCase f.name) ".csv" with
  | false =>
    refine ⟨?_, ?_, ?_⟩ <;>
      simp [alertsEmitted, callAccepted, validateCSVFile, validationResult, hs, hext,
        drop_length_append, List.drop_length]
  | true =>
    by_cases hsz : f.size > maxUploadBytes
    · refine ⟨?_, ?_, ?_⟩ <;>
        simp [alertsEmitted, callAccepted, validateCSVFile, validationResult, hs, hext, hsz,
          drop_length_append, List.drop_length]
    · refine ⟨?_, ?_, ?_⟩ <;>
        simp [alertsEmitted, callAccepted, validateCSVFile, validationResult, hs, hext, hsz,
          drop_length_append, List.drop_length, Option.map_map, Function.comp_def]

/-- setLoading with loading set leaves the element disabled in every
branch. -/
theorem setLoading_true_disabled (e : DomElement) :
    (setLoading e true).disabled = true := by
  unfold setLoading
  cases hic : e.iconClass <;> by_cases hbtn : (e.tagName == "BUTTON") = true <;>
    simp [hic, hbtn]

/-- A second submit attempt right after a first one changes nothing: the
first attempt disabled the button. -/
theorem clickSubmit_idem (q : FormPage) :
    clickSubmit (clickSubmit q) = clickSubmit q := by
  cases hq : q.submitButton with
  | none => simp [clickSubmit, hq]
  | some b =>
    by_cases hd : b.disabled = true
    · simp [clickSubmit, hq, hd]
    · simp [clickSubmit, hq, hd, setLoading_true_disabled]

/-- One submit attempt performs at most one outbound submission. -/
theorem clickSubmit_outbound_le (q : FormPage) :
    (clickSubmit q).outbound ≤ q.outbound + 1 := by
  cases hq : q.submitButton with
  | none => simp [clickSubmit, hq]
  | some b =>
    by_cases hd : b.disabled = true
    · simp [clickSubmit, hq, hd]
    · simp [clickSubmit, hq, hd]

/-- Any positive number of submit attempts has the effect of the first
one alone. -/
theorem clickSubmit_iterate (q : FormPage) (n : Nat) :
    clickSubmit^[n + 1] q = clickSubmit q := by
  induction n with
  | zero => rfl
  | succ n ih => rw [Function.iterate_succ_apply', ih, clickSubmit_idem]

/-! ## Claim C1 -/

/-- An oversized file with an invalid extension, staged on an upload page
that has a fileInfo element and an initially disabled submit button. -/
def oversizedTxtState : UploadState :=
  ⟨[⟨"big.txt", 209715200⟩], some "", some true, []⟩

/-- C1 counterexample: a 200 MB file named big.txt exceeds the configured
maximum, yet validateCSVFile does not report TOO_LARGE for it: the
extension check runs first, so the call emits the extension alert and the
derived reason is BAD_EXTENSION. -/
theorem oversized_bad_extension_not_too_large :
    209715200 > maxUploadBytes ∧
    validationResult ⟨"big.txt", 209715200⟩ ≠ ReasonCode.TOO_LARGE ∧
    (validateCSVFile oversizedTxtState).alerts = [badExtensionAlert] := by decide

/-- C1 (amended): every staged file whose size exceeds the configured
maximum and whose lowercase name ends in .csv is rejected with reason
TOO_LARGE, the staged selection is cleared, the danger size alert is
emitted, and the submit control is disabled; an oversized file with an
invalid extension is instead rejected as BAD_EXTENSION because the
extension check runs first. -/
theorem validateCSVFile_too_large (s : UploadState) (f : CSVFile)
    (hf : s.files.head? = some f)
    (hext : jsEndsWith (jsToLowerCase f.name) ".csv" = true)
    (hsize : f.size > maxUploadBytes) :
    validationResult f = ReasonCode.TOO_LARGE ∧
    validateCSVFile s =
      { s with files := [],
               alerts := s.alerts ++ [tooLargeAlert],
               fileInfo := s.fileInfo.map (fun _ => tooLargeHTML),
               submitBtnDisabled := s.submitBtnDisabled.map (fun _ => true) } := by
  refine ⟨by simp [validationResult, hext, hsize], ?_⟩
  rw [validateCSVFile_eq_of_head s f hf]
  simp [hext, hsize]

/-- An oversized file with a valid extension, staged. -/
def oversizedCsvState : UploadState :=
  ⟨[⟨"BIG.CSV", 209715200⟩], some "", some true, []⟩

/-- C1 witness: the amended theorem at a concrete oversized csv file. -/
theorem validateCSVFile_too_large_witness :
    validationResult ⟨"BIG.CSV", 209715200⟩ = ReasonCode.TOO_LARGE ∧
    validateCSVFile oversizedCsvState =
      { oversizedCsvState with
        files := [],
        alerts := oversizedCsvState.alerts ++ [tooLargeAlert],
        fileInfo := oversizedCsvState.fileInfo.map (fun _ => tooLargeHTML),
        submitBtnDisabled := oversizedCsvState.submitBtnDisabled.map (fun _ => true) } :=
  validateCSVFile_too_large oversizedCsvState ⟨"BIG.CSV", 209715200⟩ rfl (by decide) (by decide)

/-! ## Claim C2 -/

/-- C2: every staged file whose lowercase name does not end in .csv is
rejected with reason BAD_EXTENSION, the staged selection is cleared, a
severity danger alert is emitted, the danger message is written to the
fileInfo element when present and the submit control is disabled when
present. -/
theorem validateCSVFile_bad_extension (s : UploadState) (f : CSVFile)
    (hf : s.files.head? = some f)
    (hext : jsEndsWith (jsToLowerCase f.name) ".csv" = false) :
    validationResult f = ReasonCode.BAD_EXTENSION ∧
    validateCSVFile s =
      { s with files := [],
               alerts := s.alerts ++ [badExtensionAlert],
               fileInfo := s.fileInfo.map (fun _ => badExtensionHTML),
               submitBtnDisabled := s.submitBtnDisabled.map (fun _ => true) } := by
  refine ⟨by simp [validationResult, hext], ?_⟩
  rw [validateCSVFile_eq_of_head s f hf]
  simp [hext]

/-- A staged pdf file on the upload page. -/
def badExtFileState : UploadState :=
  ⟨[⟨"document.pdf", 1024⟩], some "", some true, []⟩

/-- C2 witness: the theorem at a concrete pdf file. -/
theorem validateCSVFile_bad_extension_witness :
    validationResult ⟨"document.pdf", 1024⟩ = ReasonCode.BAD_EXTENSION ∧
    validateCSVFile badExtFileState =
      { badExtFileState with
        files := [],
        alerts := badExtFileState.alerts ++ [badExtensionAlert],
        fileInfo := badExtFileState.fileInfo.map (fun _ => badExtensionHTML),
        submitBtnDisabled := badExtFileState.submitBtnDisabled.map (fun _ => true) } :=
  validateCSVFile_bad_extension badExtFileState ⟨"document.pdf", 1024⟩ rfl (by decide)

/-! ## Claim C3 -/

/-- C3: while the lock is held (the submit button of the form is
disabled, as setLoading leaves it during an in-flight submission), a
further submit attempt is a no-op and produces no outbound submission;
moreover any number of submit attempts from any page state performs at
most one outbound submission, so at most one submission is in flight. -/
theorem submissionLock_suppresses (p : FormPage) (b : DomElement)
    (hb : p.submitButton = some b) (hl : b.disabled = true) :
    clickSubmit p = p ∧
    (∀ (q : FormPage) (n : Nat), (clickSubmit^[n] q).outbound ≤ q.outbound + 1) := by
  refine ⟨by simp [clickSubmit, hb, hl], ?_⟩
  intro q n
  cases n with
  | zero => exact Nat.le_succ q.outbound
  | succ n => rw [clickSubmit_iterate]; exact clickSubmit_outbound_le q

/-- The submit button as setLoading leaves it while a submission is in
flight. -/
def lockedButton : DomElement :=
  ⟨"BUTTON", ["loading"], true, spinnerIconHTML ++ "Submit", "Submit", none, some "Submit"⟩

/-- A form whose submission is in flight. -/
def lockedPage : FormPage := ⟨some lockedButton, 1⟩

/-- C3 witness: the theorem at a locked page, with three further submit
attempts performing no further submission. -/
theorem submissionLock_suppresses_witness :
    clickSubmit lockedPage = lockedPage ∧
    (clickSubmit^[3] lockedPage).outbound ≤ lockedPage.outbound + 1 :=
  ⟨(submissionLock_suppresses lockedPage lockedButton rfl rfl).1,
   (submissionLock_suppresses lockedPage lockedButton rfl rfl).2 lockedPage 3⟩

/-! ## Claim C4 -/

/-- C4: two showAlert calls in quick succession (100 ms apart), once the
short fade and detach timers have run, leave exactly one alert element in
the document; it is visible and carries the message and severity of the
second call, the first alert having been faded out and detached by the
second call. -/
theorem showAlert_supersedes (m1 t1 m2 t2 : String) :
    (notifyTwiceTrace m1 t1 m2 t2).attached = [⟨1, m2, t2, "1"⟩] := rfl

/-! ## Claim C5 -/

/-- C5 counterexample: on a tick with no modal open but with a SELECT
element (a form control, as used by the filter bar of the application)
holding user focus, the poller does refresh: the guard only checks for
BUTTON, INPUT and TEXTAREA tags. -/
theorem poller_refreshes_with_select_focused :
    refreshesOnTick ⟨0, some "SELECT"⟩ = true := by decide

/-- C5 (amended): the poller performs no view resynchronization on a tick
at which a modal is open or the focused element is a BUTTON, an INPUT or
a TEXTAREA; a focused element of any other tag, such as a SELECT control,
does not block the refresh. Every blocked cycle is skipped and polling
resumes on the next tick at which the blocking condition has cleared. -/
theorem poller_skips_blocked_resumes (pre : List TickEnv) (e : TickEnv)
    (hpre : ∀ x ∈ pre, x.openModalCount ≠ 0 ∨ x.activeTag = some "BUTTON" ∨
      x.activeTag = some "INPUT" ∨ x.activeTag = some "TEXTAREA")
    (hm : e.openModalCount = 0) (hf : e.activeTag = none) :
    (∀ x ∈ pre, refreshesOnTick x = false) ∧ refreshesOnTick e = true := by
  constructor
  · intro x hx
    rcases hpre x hx with hc | hc | hc | hc
    · have hb : (x.openModalCount == 0) = false := by
        cases hn : x.openModalCount with
        | zero => exact absurd hn hc
        | succ k => rfl
      simp [refreshesOnTick, hb]
    · simp [refreshesOnTick, hc]
    · simp [refreshesOnTick, hc]
    · simp [refreshesOnTick, hc]
  · simp [refreshesOnTick, hm, hf]

/-- C5 witness: a tick with a modal open and a tick with an INPUT focused
are both skipped, and the following clear tick refreshes. -/
theorem poller_skips_blocked_resumes_witness :
    (∀ x ∈ [(⟨1, none⟩ : TickEnv), ⟨0, some "INPUT"⟩], refreshesOnTick x = false) ∧
    refreshesOnTick ⟨0, none⟩ = true :=
  poller_skips_blocked_resumes [⟨1, none⟩, ⟨0, some "INPUT"⟩] ⟨0, none⟩ (by decide) rfl rfl

/-! ## Claim C6 -/

/-- An upload page before any drop. -/
def dropPageState : UploadState := ⟨[], some "", some true, []⟩

/-- C6 counterexample: a drop whose first file is not a csv file is not
forwarded through validateCSVFile at all: the handler shows its own
warning alert instead, while manual selection of the same file through
validateCSVFile emits the danger extension alert and clears the
selection. -/
theorem handleDrop_non_csv_not_forwarded :
    (handleDrop [⟨"notes.txt", 1048576⟩] dropPageState).2 = false ∧
    (handleDrop [⟨"notes.txt", 1048576⟩] dropPageState).1.alerts =
      [⟨"Please drop a CSV file.", "warning"⟩] ∧
    (validateCSVFile { dropPageState with files := [⟨"notes.txt", 1048576⟩] }).alerts =
      [badExtensionAlert] := by decide

/-- C6 (amended): on every non-empty drop only the first dropped file is
considered; the alerts, the fileInfo message, the submit control state
and whether validateCSVFile ran are the same as for a drop of the first
file alone, so extra dropped files are ignored without an error; and
validateCSVFile runs exactly when the lowercase name of the first file
ends in .csv, in which case the drop goes through the same
validateCSVFile path as manual selection. -/
theorem handleDrop_first_file_only (f : CSVFile) (rest : List CSVFile) (s : UploadState) :
    ((handleDrop (f :: rest) s).1.alerts = (handleDrop [f] s).1.alerts ∧
     (handleDrop (f :: rest) s).1.fileInfo = (handleDrop [f] s).1.fileInfo ∧
     (handleDrop (f :: rest) s).1.submitBtnDisabled =
       (handleDrop [f] s).1.submitBtnDisabled ∧
     (handleDrop (f :: rest) s).2 = (handleDrop [f] s).2) ∧
    (handleDrop (f :: rest) s).2 = jsEndsWith (jsToLowerCase f.name) ".csv" := by
  cases hext : jsEndsWith (jsToLowerCase f.name) ".csv" with
  | false => simp [handleDrop, hext]
  | true =>
    have e1 := validateCSVFile_eq_of_head { s with files := f :: rest } f rfl
    have e2 := validateCSVFile_eq_of_head { s with files := [f] } f rfl
    by_cases hsz : f.size > maxUploadBytes <;>
      simp [handleDrop, hext, hsz, e1, e2]

/-! ## Claim C7 -/

/-- C7: the ValidationResult of a validateCSVFile call is a function of
the staged file alone: two calls with the same file staged, in arbitrary
surrounding page states, emit the same alerts and make the same
acceptance decision; moreover a repeated call on the resulting state
changes nothing. -/
theorem validateCSVFile_idempotent_result (f : CSVFile) (s1 s2 : UploadState)
    (h1 : s1.files.head? = some f) (h2 : s2.files.head? = some f) :
    alertsEmitted s1 = alertsEmitted s2 ∧
    callAccepted s1 = callAccepted s2 ∧
    validateCSVFile (validateCSVFile s1) = validateCSVFile s1 := by
  obtain ⟨a1, b1, c1⟩ := validateCSVFile_observables s1 f h1
  obtain ⟨a2, b2, _⟩ := validateCSVFile_observables s2 f h2
  exact ⟨a1.trans a2.symm, b1.trans b2.symm, c1⟩

/-- The same report file staged in two different page states. -/
def stagedReportA : UploadState := ⟨[⟨"report.csv", 2621440⟩], some "", some true, []⟩

/-- A second page state staging the same first file with another file
behind it, no fileInfo element, no submit button and a prior alert. -/
def stagedReportB : UploadState :=
  ⟨[⟨"report.csv", 2621440⟩, ⟨"other.txt", 5⟩], none, none,
   [⟨"All filters cleared", "info"⟩]⟩

/-- C7 witness: the theorem at the concrete report file in two different
page states. -/
theorem validateCSVFile_idempotent_result_witness :
    alertsEmitted stagedReportA = alertsEmitted stagedReportB ∧
    callAccepted stagedReportA = callAccepted stagedReportB ∧
    validateCSVFile (validateCSVFile stagedReportA) = validateCSVFile stagedReportA :=
  validateCSVFile_idempotent_result ⟨"report.csv", 2621440⟩ stagedReportA stagedReportB rfl rfl

/-! ## Claim C8 -/

/-- C8 counterexample: after showAlert at time 0 and a manual dismissal at
time 100, the auto-expiry timer of the dismissed alert is still pending:
manual dismissal does not cancel it, contrary to the claim. -/
theorem manual_dismiss_leaves_timer :
    (dismissTrace "Copied to clipboard!" "success").attached = [] ∧
    (dismissTrace "Copied to clipboard!" "success").timers =
      [⟨5000, TAct.autoDismiss 0⟩] := ⟨rfl, rfl⟩

/-- C8 (amended): manual dismissal leaves the auto-expiry timer pending;
when that timer fires, its callback finds the alert detached (the
parentNode guard) and performs no removal and schedules nothing, so no
double removal occurs: running all timers after the dismissal ends with
no attached alert, no pending timer, and no other state change. -/
theorem dismissed_alert_expiry_harmless (m t : String) :
    (dismissTrace m t).timers = [⟨5000, TAct.autoDismiss 0⟩] ∧
    runUntilTime 8 6000 (dismissTrace m t) = ⟨[], [], 1⟩ := ⟨rfl, rfl⟩

/-! ## Claim C9 -/

/-- A valid 2.5 MB report file staged on the upload page. -/
def acceptedReportState : UploadState :=
  ⟨[⟨"report.csv", 2621440⟩], some "", some true, []⟩

/-- C9 counterexample: for a valid staged file the call accepts and
enables the submit control, but it emits no notification at all: the
success summary goes into the inline fileInfo element, not through the
alert channel, contrary to the claim that a success notification is
surfaced. -/
theorem accepted_file_emits_no_alert :
    validationResult ⟨"report.csv", 2621440⟩ = ReasonCode.OK ∧
    (validateCSVFile acceptedReportState).submitBtnDisabled = some false ∧
    (validateCSVFile acceptedReportState).alerts = [] := by decide

/-- C9 (amended): every staged file passing both checks is accepted with
result OK: the submit control is enabled when present, a success-styled
summary naming the file and its size in MB is written into the fileInfo
element when present, the file stays staged and the alert log is
untouched; no transient notification is emitted. -/
theorem validateCSVFile_accepts (s : UploadState) (f : CSVFile)
    (hf : s.files.head? = some f)
    (hext : jsEndsWith (jsToLowerCase f.name) ".csv" = true)
    (hsize : ¬ f.size > maxUploadBytes) :
    validationResult f = ReasonCode.OK ∧
    validateCSVFile s =
      { s with fileInfo := s.fileInfo.map (fun _ => fileInfoSuccessHTML f),
               submitBtnDisabled := s.submitBtnDisabled.map (fun _ => false) } ∧
    (validateCSVFile s).files = s.files ∧
    (validateCSVFile s).alerts = s.alerts := by
  rw [validateCSVFile_eq_of_head s f hf]
  refine ⟨by simp [validationResult, hext, hsize], ?_, ?_, ?_⟩ <;> simp [hext, hsize]

/-- C9 witness: the amended theorem at the concrete report file. -/
theorem validateCSVFile_accepts_witness :
    validationResult ⟨"report.csv", 2621440⟩ = ReasonCode.OK ∧
    validateCSVFile acceptedReportState =
      { acceptedReportState with
        fileInfo := acceptedReportState.fileInfo.map
          (fun _ => fileInfoSuccessHTML ⟨"report.csv", 2621440⟩),
        submitBtnDisabled := acceptedReportState.submitBtnDisabled.map (fun _ => false) } ∧
    (validateCSVFile acceptedReportState).files = acceptedReportState.files ∧
    (validateCSVFile acceptedReportState).alerts = acceptedReportState.alerts :=
  validateCSVFile_accepts acceptedReportState ⟨"report.csv", 2621440⟩ rfl (by decide) (by decide)

/-! ## Claim C10 -/

/-- C10: calling validateCSVFile with no staged file is a no-op: the
whole page state, including the alert log, the fileInfo element, the
submit control and the input, is returned unchanged. -/
theorem validateCSVFile_noop_when_empty (s : UploadState) (h : s.files = []) :
    validateCSVFile s = s :=
  validateCSVFile_empty_files s h

/-- C10 witness: the theorem at a concrete page with an empty file list. -/
theorem validateCSVFile_noop_when_empty_witness :
    validateCSVFile ⟨[], some "", some true, []⟩ = ⟨[], some "", some true, []⟩ :=
  validateCSVFile_noop_when_empty ⟨[], some "", some true, []⟩ rfl
